import Mathlib

set_option maxRecDepth 1000000

/-!
# Phase Classification & Signal Scoring Engine — verification development

Shallow embedding of the screening core of the stock-screener repository
(`src/screening/phase_indicators.py` and `src/screening/signal_engine.py`).

Modelling conventions:
* Python floats are modelled as exact rationals (`ℚ`).
* A pandas `Series` of floats is a `List ℚ`; a series that may contain NaN
  (such as a rolling SMA, which is NaN before the window fills) is a
  `List (Option ℚ)` with `none` standing for NaN.
* A pandas `DataFrame` of OHLCV data is a `PriceData` record; the optional
  `Volume` column is an `Option (List ℚ)` (`none` = column absent).
  `len(price_data)` (the row count) is modelled as `pd.close.length`.
* Python dictionaries with known keys become structures; a key read with
  `.get(k)` (no default) is an `Option` field, a read with `.get(k, d)`
  becomes `field.getD d`.
* Fallible code paths (a `TypeError` from comparing a float against `None`,
  an `IndexError` from `iloc[-2]` on a short series, a `ZeroDivisionError`
  from dividing by a zero price) are modelled with `Except String`.
* `pandas.Series.min/max/mean` of an empty series yields NaN; where that can
  reach an output we model the value as `Option ℚ` with `none` = NaN.
* Python `round(x, n)` rounds half to even; `int(x)` truncates toward zero.
  Both are embedded exactly (`pyRound`, `pyInt`).
* `pandas.rolling(w).std()` takes real square roots, which ℚ cannot
  represent.  The volatility-contraction detector is therefore parameterized
  by the square-root function `sq : ℚ → ℚ`; every theorem below holds for
  every such function, in particular for the true square root.  The detector
  only feeds the Phase-1 confidence bonus and the returned volatility
  payload, which no claim depends on numerically.
-/

/-- Last `n` elements of a list (`series.iloc[-n:]`). -/
def takeLast (n : ℕ) (l : List α) : List α := l.drop (l.length - n)

/-- `series.iloc[-1]` for a float series known to be nonempty in context.
The default `0` is unreachable in every guarded use. -/
def ilocLastQ (l : List ℚ) : ℚ := l.getLastD 0

/-- `series.iloc[-1]` for a NaN-carrying series; `0` stands for an
unreachable NaN/empty read (all guarded uses have a defined last value). -/
def ilocLastO (l : List (Option ℚ)) : ℚ := ((l.getLast?).join).getD 0

/-- Mean of a float series (`series.mean()`); the empty series gives `0`,
which in every use below flows into a `> 0` test exactly as pandas' NaN
would (both fail the test). -/
def listMean (l : List ℚ) : ℚ := l.sum / (l.length : ℚ)

/-- `series.max()` for a series nonempty in context. -/
def listMax (l : List ℚ) : ℚ :=
  match l with
  | [] => 0
  | h :: t => t.foldl max h

/-- `series.min()` for a series nonempty in context. -/
def listMin (l : List ℚ) : ℚ :=
  match l with
  | [] => 0
  | h :: t => t.foldl min h

/-- `series.min()` with pandas semantics: the empty series yields NaN,
modelled as `none`. -/
def pandasMin (l : List ℚ) : Option ℚ :=
  match l with
  | [] => none
  | h :: t => some (t.foldl min h)

/-- Python `and`-style truthiness of an optional float: `None` and `0.0`
are falsy. -/
def pyTruthy (o : Option ℚ) : Bool :=
  match o with
  | none => false
  | some x => x ≠ 0

/-- Round half to even to an integer (the rounding Python's `round` uses). -/
def pyRoundInt (x : ℚ) : ℤ :=
  if x - ((⌊x⌋ : ℤ) : ℚ) < 1/2 then ⌊x⌋
  else if 1/2 < x - ((⌊x⌋ : ℤ) : ℚ) then ⌊x⌋ + 1
  else if Even ⌊x⌋ then ⌊x⌋ else ⌊x⌋ + 1

/-- Python `round(x, n)`: round half to even at `n` decimal places. -/
def pyRound (n : ℕ) (x : ℚ) : ℚ :=
  ((pyRoundInt (x * (10 : ℚ) ^ n) : ℚ)) / (10 : ℚ) ^ n

/-- Python `int(x)`: truncation toward zero. -/
def pyInt (x : ℚ) : ℤ := if 0 ≤ x then ⌊x⌋ else ⌈x⌉

/-- OHLCV frame: the `Volume` column may be absent (`none`). -/
structure PriceData where
  high : List ℚ
  low : List ℚ
  close : List ℚ
  volume : Option (List ℚ)
deriving DecidableEq, Repr

/-- The phase-classification dictionary as consumed downstream.  `phase` is
always present (read with `['phase']`); the indicator fields are read with
`.get(...)` and hence optional. -/
structure PhaseDict where
  phase : ℤ
  sma_50 : Option ℚ := none
  sma_150 : Option ℚ := none
  sma_200 : Option ℚ := none
  slope_50 : Option ℚ := none
  slope_200 : Option ℚ := none
  distance_from_50sma : Option ℚ := none
  distance_from_200sma : Option ℚ := none
  week_52_high : Option ℚ := none
  week_52_low : Option ℚ := none
deriving DecidableEq, Repr

/-- `calculate_sma(prices, period)` — trailing mean, NaN until the window
fills (pandas `rolling(period, min_periods=period).mean()`). -/
def calculate_sma (prices : List ℚ) (period : ℕ) : List (Option ℚ) :=
  if prices.length < period then List.replicate prices.length none
  else
    (List.range prices.length).map fun i =>
      if i + 1 < period then none
      else some (((prices.drop (i + 1 - period)).take period).sum / (period : ℚ))

/-- `calculate_slope(series, periods)` — ordinary-least-squares slope of the
last `periods` non-NaN points, as a percentage of the window mean.
`np.polyfit(x, y, 1)[0]` is the OLS slope
`(n·Σxy − Σx·Σy) / (n·Σx² − (Σx)²)` with `x = 0, …, n−1`; `np.std(x) == 0`
is equivalent to `n·Σx² − (Σx)² = 0`. -/
def calculate_slope (series : List (Option ℚ)) (periods : ℕ) : ℚ :=
  if series.length < periods ∨ series.all (fun o => o.isNone) then 0
  else
    let recent := (series.drop (series.length - periods)).filterMap id
    if recent.length < 2 then 0
    else
      let n : ℚ := (recent.length : ℚ)
      let sx : ℚ := ∑ i ∈ Finset.range recent.length, (i : ℚ)
      let sy : ℚ := ∑ i ∈ Finset.range recent.length, recent.getD i 0
      let sxy : ℚ := ∑ i ∈ Finset.range recent.length, (i : ℚ) * recent.getD i 0
      let sxx : ℚ := ∑ i ∈ Finset.range recent.length, (i : ℚ) ^ 2
      if n * sxx - sx ^ 2 = 0 then 0
      else
        let slope := (n * sxy - sx * sy) / (n * sxx - sx ^ 2)
        let avg := sy / n
        if avg = 0 then 0 else slope / avg * 100

/-- `calculate_rs_slope(rs_series, periods)` — delegates to the slope. -/
def calculate_rs_slope (rs_series : List (Option ℚ)) (periods : ℕ) : ℚ :=
  calculate_slope rs_series periods

/-- `find_base_high(prices, window)` — max close over the trailing window,
`None` on insufficient history. -/
def find_base_high (prices : List ℚ) (window : ℕ) : Option ℚ :=
  if prices.length < window then none
  else some (listMax (takeLast window prices))

/-- `find_pivot_high(prices, window)` — max close over the trailing window,
`None` on insufficient history. -/
def find_pivot_high (prices : List ℚ) (window : ℕ) : Option ℚ :=
  if prices.length < window then none
  else some (listMax (takeLast window prices))

/-- `calculate_volume_ratio(volumes, period)` — most-recent volume over the
mean of the `period` volumes immediately preceding it (current bar
excluded); neutral 1.0 on short history or zero mean.  (Named without the
source's trailing `_ratio` for lexical reasons.) -/
def calculateVolumeRat (volumes : List ℚ) (period : ℕ) : ℚ :=
  if volumes.length < period + 1 then 1
  else
    let current := ilocLastQ volumes
    let avg := listMean ((volumes.drop (volumes.length - (period + 1))).take period)
    if avg = 0 then 1 else current / avg

/-- `calculate_distance_from_sma(price, sma)` — percentage distance. -/
def calculate_distance_from_sma (price : ℚ) (sma : ℚ) : ℚ :=
  if sma = 0 then 0 else (price - sma) / sma * 100

/-- Sample variance (`ddof = 1`), the square of pandas `std`. -/
def sampleVar (l : List ℚ) : ℚ :=
  let n : ℚ := (l.length : ℚ)
  let s := l.sum
  let s2 := (l.map (fun x => x ^ 2)).sum
  (n * s2 - s ^ 2) / (n * (n - 1))

/-- `prices.rolling(window).std()` given a square-root function `sq`. -/
def rollingStd (sq : ℚ → ℚ) (prices : List ℚ) (window : ℕ) : List (Option ℚ) :=
  (List.range prices.length).map fun i =>
    if i + 1 < window then none
    else some (sq (sampleVar ((prices.drop (i + 1 - window)).take window)))

/-- Volatility-contraction payload.  The source dict's `contraction_ratio`
key (absent in the degraded early returns) is the `contraction_level`
field here (renamed for lexical reasons). -/
structure VolContraction where
  is_contracting : Bool
  contraction_quality : ℚ
  current_volatility : ℚ
  contraction_level : Option ℚ
deriving DecidableEq, Repr

/-- `detect_volatility_contraction(prices, window)`, parameterized by the
square-root function used by the rolling standard deviation. -/
def detect_volatility_contraction (sq : ℚ → ℚ) (prices : List ℚ) (window : ℕ) :
    VolContraction :=
  if prices.length < window * 2 then ⟨false, 0, 0, none⟩
  else
    let volatility := rollingStd sq prices window
    if (volatility.filterMap id).length < 2 then ⟨false, 0, 0, none⟩
    else
      let current_vol := ilocLastO volatility
      let prevVals :=
        (((volatility.drop (volatility.length - window * 2)).take window).filterMap id)
      let avg_vol := listMean prevVals
      let cr := if avg_vol > 0 then current_vol / avg_vol else 1
      let quality := max 0 (min 100 ((1 - cr) * 100))
      ⟨cr < 7/10, pyRound 2 quality, pyRound 2 current_vol, some (pyRound 2 cr)⟩

/-- The volume ratio computed inline by `classify_phase` (lines 340–346 of
`phase_indicators.py`): most-recent volume over the mean of the last 20
volumes *including* the current bar; neutral 1.0 when there are at most 20
volume points or the mean is not positive. -/
def classifyPhaseVolumeRat (volume : List ℚ) : ℚ :=
  if volume.length > 20 then
    let avg_volume := listMean (takeLast 20 volume)
    let current_volume := ilocLastQ volume
    if avg_volume > 0 then current_volume / avg_volume else 1
  else 1

/-- The phase-classification output record.  The indicator fields are
`none` in the two degraded early returns (which only carry
`phase`/`phase_name`/`confidence`/reasons in the source).  The
human-readable `reasons` strings are presentation-only and not modelled. -/
structure PhaseResult where
  phase : ℤ
  phase_name : String
  confidence : ℚ
  sma_50 : Option ℚ := none
  sma_150 : Option ℚ := none
  sma_200 : Option ℚ := none
  slope_50 : Option ℚ := none
  slope_200 : Option ℚ := none
  distance_from_50sma : Option ℚ := none
  distance_from_200sma : Option ℚ := none
  week_52_high : Option ℚ := none
  week_52_low : Option ℚ := none
  volatility : Option VolContraction := none
deriving DecidableEq, Repr

/-- `classify_phase(price_data, current_price)` — the 5-state priority-chain
classifier.  `sq` is the square-root function used by the volatility
detector (see the module comment). -/
def classify_phase (sq : ℚ → ℚ) (pd : PriceData) (current_price : ℚ) : PhaseResult :=
  if pd.close.length < 200 then
    { phase := 0, phase_name := "Insufficient Data", confidence := 0 }
  else
    let close := pd.close
    let sma50L := calculate_sma close 50
    let sma150L := calculate_sma close 150
    let sma200L := calculate_sma close 200
    if sma50L.all (fun o => o.isNone) || sma200L.all (fun o => o.isNone) then
      { phase := 0, phase_name := "Insufficient Data", confidence := 0 }
    else
      let sma_50_val := ilocLastO sma50L
      let sma_150_val := if sma150L.all (fun o => o.isNone) then 0 else ilocLastO sma150L
      let sma_200_val := ilocLastO sma200L
      let week_52_high :=
        if 252 ≤ close.length then listMax (takeLast 252 pd.high) else listMax pd.high
      let week_52_low :=
        if 252 ≤ close.length then listMin (takeLast 252 pd.low) else listMin pd.low
      let slope_50 := calculate_slope sma50L 20
      let slope_200 := calculate_slope sma200L 20
      let vol_data := detect_volatility_contraction sq close 20
      let volume := pd.volume.getD []
      let vr := classifyPhaseVolumeRat volume
      let pc : ℤ × String × ℚ :=
        if current_price < sma_50_val ∧ current_price < sma_200_val ∧
            sma_50_val < sma_200_val then
          (4, "Downtrend",
            70 + (if slope_50 < 0 ∧ slope_200 < 0 then 20 else 0) +
              (if slope_50 < 0 then 10 else 0))
        else if current_price > sma_50_val ∧ sma_50_val > sma_200_val ∧
            slope_50 > 0 then
          (2, "Uptrend/Breakout",
            70 + (if slope_200 > 0 then 15 else 0) + (if vr > 6/5 then 15 else 0))
        else if current_price > sma_50_val ∧
            calculate_distance_from_sma current_price sma_50_val > 25 then
          (3, "Distribution/Top",
            60 + (if slope_50 < 5/100 then 20 else 0) +
              (if |slope_50| < |slope_200| * (1/2) then 20 else 0))
        else
          (1, "Base Building",
            50 + (if |slope_50| < 1/10 then 15 else 0) +
              (if |slope_200| < 5/100 then 10 else 0) +
              (if vol_data.is_contracting then 15 else 0) +
              (if vr < 1 then 10 else 0))
      { phase := pc.1
        phase_name := pc.2.1
        confidence := min pc.2.2 100
        sma_50 := some (pyRound 2 sma_50_val)
        sma_150 := some (pyRound 2 sma_150_val)
        sma_200 := some (pyRound 2 sma_200_val)
        slope_50 := some (pyRound 4 slope_50)
        slope_200 := some (pyRound 4 slope_200)
        distance_from_50sma :=
          some (pyRound 2 (calculate_distance_from_sma current_price sma_50_val))
        distance_from_200sma :=
          some (pyRound 2 (calculate_distance_from_sma current_price sma_200_val))
        week_52_high := some (pyRound 2 week_52_high)
        week_52_low := some (pyRound 2 week_52_low)
        volatility := some vol_data }

/-- Breakout record: `round(breakout_level, 2) if breakout_level else None`
applied to a set level; no-breakout records carry `none`/`none`. -/
structure Breakout where
  is_breakout : Bool
  breakout_level : Option ℚ
  breakout_type : Option String
deriving DecidableEq, Repr

/-- The `'breakout_level'` entry of the returned dict:
`round(breakout_level, 2) if breakout_level else None` (a zero level is
falsy and formats as `None`). -/
def mkBreakoutLevel (x : ℚ) : Option ℚ :=
  if x = 0 then none else some (pyRound 2 x)

/-- The final `elif sma_50 and current_price > sma_50` branch of
`detect_breakout`: a fresh cross of the 50-SMA (`close.iloc[-2]` below it,
current price above).  `close.iloc[-2]` raises `IndexError` on a series
with fewer than 2 points. -/
def detectBreakoutSmaBranch (close : List ℚ) (current_price : ℚ)
    (sma_50 : Option ℚ) : Except String Breakout :=
  if pyTruthy sma_50 ∧ current_price > sma_50.getD 0 then
    if close.length < 2 then .error "IndexError: iloc on short series"
    else
      let prev := close.getD (close.length - 2) 0
      if prev < sma_50.getD 0 ∧ sma_50.getD 0 < current_price then
        .ok ⟨true, mkBreakoutLevel (sma_50.getD 0), some "50 SMA Breakout"⟩
      else .ok ⟨false, none, none⟩
  else .ok ⟨false, none, none⟩

/-- `detect_breakout(price_data, current_price, phase_info)`.

Fallible paths of the source, surfaced as `Except.error`:
* in the pivot branch, `pivot_high < base_high` compares a float against
  `None` whenever the 20-bar pivot exists but the 60-bar base does not
  (20 ≤ len < 60) — a Python `TypeError`;
* in the 50-SMA branch, `close.iloc[-2]` raises `IndexError` when the
  series has fewer than 2 points. -/
def detect_breakout (pd : PriceData) (current_price : ℚ) (phase_info : PhaseDict) :
    Except String Breakout :=
  if ¬ (phase_info.phase = 1 ∨ phase_info.phase = 2) then
    .ok ⟨false, none, none⟩
  else
    let close := pd.close
    let base_high := find_base_high close 60
    let pivot_high := find_pivot_high close 20
    let sma_50 := phase_info.sma_50
    let smaBranch : Except String Breakout :=
      detectBreakoutSmaBranch close current_price sma_50
    if pyTruthy base_high ∧ current_price > base_high.getD 0 then
      .ok ⟨true, mkBreakoutLevel (base_high.getD 0), some "Base Breakout"⟩
    else if pyTruthy pivot_high ∧ current_price > pivot_high.getD 0 then
      match base_high with
      | none => .error "TypeError: comparison between float and NoneType"
      | some b =>
        if pivot_high.getD 0 < b then
          .ok ⟨true, mkBreakoutLevel (pivot_high.getD 0), some "Pivot Breakout"⟩
        else smaBranch
    else smaBranch

/-- Trend-template output; the 8 named criterion booleans of
`criteria_details` are inlined as fields. -/
structure TrendTemplate where
  passes_template : Bool
  criteria_passed : ℕ
  criteria_total : ℕ
  template_score : ℤ
  price_above_150_200 : Bool
  sma_150_above_200 : Bool
  sma_200_rising : Bool
  sma_50_above_150 : Bool
  price_above_50 : Bool
  price_30pct_above_52w_low : Bool
  price_near_52w_high : Bool
  confirmed_stage_2 : Bool
  distance_from_52w_low_pct : ℚ
  distance_from_52w_high_pct : ℚ
deriving DecidableEq, Repr

/-- NaN-aware `>` on two possibly-NaN series entries: any comparison
against NaN is false. -/
def optGtB (a b : Option ℚ) : Bool :=
  match a, b with
  | some x, some y => decide (x > y)
  | _, _ => false

/-- `validate_minervini_trend_template(current_price, phase_info,
sma_200_series)` — the 8-criterion Stage-2 confirmation. -/
def validate_minervini_trend_template (current_price : ℚ) (phase_info : PhaseDict)
    (sma_200_series : List (Option ℚ)) : TrendTemplate :=
  let sma_50 := phase_info.sma_50.getD 0
  let sma_150 := phase_info.sma_150.getD 0
  let sma_200 := phase_info.sma_200.getD 0
  let week_52_high := phase_info.week_52_high.getD 0
  let week_52_low := phase_info.week_52_low.getD 0
  let c1 := decide (current_price > sma_150 ∧ current_price > sma_200)
  let c2 := decide (sma_150 > sma_200)
  let c3 :=
    if 20 ≤ sma_200_series.length then
      optGtB (sma_200_series.getD (sma_200_series.length - 1) none)
        (sma_200_series.getD (sma_200_series.length - 20) none)
    else decide (phase_info.slope_200.getD 0 > 0)
  let c4 := decide (sma_50 > sma_150)
  let c5 := decide (current_price > sma_50)
  let dLow := if week_52_low > 0 then (current_price - week_52_low) / week_52_low * 100 else 0
  let c6 := decide (week_52_low > 0) && decide (dLow ≥ 30)
  let dHigh := if week_52_high > 0 then (week_52_high - current_price) / week_52_high * 100 else 100
  let c7 := decide (week_52_high > 0) && decide (dHigh ≤ 25)
  let c8 := decide (phase_info.phase = 2)
  let passed_count := c1.toNat + c2.toNat + c3.toNat + c4.toNat + c5.toNat +
    c6.toNat + c7.toNat + c8.toNat
  { passes_template := decide (passed_count ≥ 7)
    criteria_passed := passed_count
    criteria_total := 8
    template_score := pyInt ((passed_count : ℚ) / 8 * 100)
    price_above_150_200 := c1
    sma_150_above_200 := c2
    sma_200_rising := c3
    sma_50_above_150 := c4
    price_above_50 := c5
    price_30pct_above_52w_low := c6
    price_near_52w_high := c7
    confirmed_stage_2 := c8
    distance_from_52w_low_pct := if week_52_low > 0 then pyRound 1 dLow else 0
    distance_from_52w_high_pct := if week_52_high > 0 then pyRound 1 dHigh else 100 }

/-- `calculate_stop_loss(price_data, current_price, phase_info, phase)`.
A `none` result models a NaN stop: with an empty `Low` column pandas'
`min()` is NaN, which propagates through `max` and makes both risk
comparisons false, so the NaN is returned unchanged.  A zero current
price raises `ZeroDivisionError` at the `risk_pct` division in either
branch. -/
def calculate_stop_loss (pd : PriceData) (current_price : ℚ) (phase_info : PhaseDict)
    (phase : ℤ) : Except String (Option ℚ) :=
  if current_price = 0 then .error "ZeroDivisionError: float division by zero"
  else if phase = 2 then
    match pandasMin (if 10 ≤ pd.close.length then takeLast 10 pd.low else pd.low) with
    | none => .ok none
    | some recent_low =>
      let swing_low_stop := recent_low * (995/1000)
      let sma_50 := phase_info.sma_50.getD 0
      let sma_stop := if sma_50 > 0 then sma_50 * (99/100) else swing_low_stop
      let stop_loss := max swing_low_stop sma_stop
      let risk_pct := (current_price - stop_loss) / current_price
      .ok (some (if risk_pct < 3/100 then current_price * (97/100)
        else if risk_pct > 10/100 then current_price * (90/100)
        else stop_loss))
  else
    match pandasMin (if 30 ≤ pd.close.length then takeLast 30 pd.low else pd.low) with
    | none => .ok none
    | some base_low =>
      let stop_loss := base_low * (99/100)
      let risk_pct := (current_price - stop_loss) / current_price
      .ok (some (if risk_pct > 10/100 then current_price * (90/100) else stop_loss))

/-- The optional fundamentals map (`revenue_yoy_change`, `eps_yoy_change`,
`inventory_qoq_change`, each possibly `None`). -/
structure Fundamentals where
  revenue_yoy_change : Option ℚ := none
  eps_yoy_change : Option ℚ := none
  inventory_qoq_change : Option ℚ := none
deriving DecidableEq, Repr

/-- The fundamentals bucket of `score_buy_signal` (section 2 of the
source): revenue + EPS + inventory components plus the flat +5 margin
placeholder; 15 when no fundamentals were supplied. -/
def fundamentalsScore (fundamentals : Option Fundamentals) : ℚ :=
  match fundamentals with
  | none => 15
  | some f =>
    (match f.revenue_yoy_change with
     | some revenue_yoy => min (15/2) (max 0 ((revenue_yoy + 20) / 60 * (15/2)))
     | none => 15/4) +
    (match f.eps_yoy_change with
     | some eps_yoy => min (15/2) (max 0 ((eps_yoy + 20) / 80 * (15/2)))
     | none => 15/4) +
    (match f.inventory_qoq_change with
     | some inv_qoq => min 10 (max 0 (10 - inv_qoq / 20 * 10))
     | none => 5) +
    5

/-- The directional volume study of `score_buy_signal` (section 3): the
last 5 daily price changes, partitioned into up/down days, with the
average volume on each side.  The source's `avg_volume` variable is dead
code and omitted.  Zero price change counts as a down day. -/
def volumeBehaviorScore (close : List ℚ) (volume : List ℚ) : ℚ :=
  let recent_prices := takeLast 6 close
  let recent_volume := takeLast 5 volume
  let idxs := (List.range (recent_prices.length - 1)).map (fun i => i + 1)
  let ups := idxs.filter fun i =>
    decide (recent_prices.getD i 0 - recent_prices.getD (i - 1) 0 > 0)
  let downs := idxs.filter fun i =>
    ! decide (recent_prices.getD i 0 - recent_prices.getD (i - 1) 0 > 0)
  let volume_on_up_days := (ups.map (fun i => recent_volume.getD (i - 1) 0)).sum
  let volume_on_down_days := (downs.map (fun i => recent_volume.getD (i - 1) 0)).sum
  let avg_vol_up := if ups.length > 0 then volume_on_up_days / (ups.length : ℚ) else 0
  let avg_vol_down :=
    if downs.length > 0 then volume_on_down_days / (downs.length : ℚ) else 0
  let volQuot := if avg_vol_down > 0 then avg_vol_up / avg_vol_down else 1
  min 10 (max 0 (5 + (volQuot - 1) * 10))

/-- Buy-signal result.  Fields that the source's early wrong-phase return
dict does not carry (`phase`, `stop_loss`, …) default to neutral values
there; the `reasons` strings are presentation-only and not modelled. -/
structure BuySignal where
  ticker : String
  is_buy : Bool
  score : ℚ
  phase : ℤ := 0
  breakout_price : Option ℚ := none
  stop_loss : Option ℚ := none
  risk_reward : ℚ := 0
  entry_quality : String := ""
  trend_score : ℚ := 0
  fundamental_score : ℚ := 0
  volume_score : ℚ := 0
  rs_score : ℚ := 0
  rr_score : ℚ := 0
  entry_score : ℚ := 0
deriving DecidableEq, Repr

/-- The reward-target computation of `score_buy_signal` (section 6):
20% above price in Phase 2, otherwise 15% above the breakout level (or
above the 50-SMA without a breakout).  A `None` breakout level with
`is_breakout` set would raise `TypeError` in the source (unreachable,
since a set breakout always carries a nonzero level, but embedded
faithfully). -/
def buyRewardTarget (phase : ℤ) (current_price : ℚ) (sma_50 : ℚ)
    (breakout_info : Breakout) : Except String ℚ :=
  if phase = 2 then .ok (current_price * (6/5))
  else if breakout_info.is_breakout then
    match breakout_info.breakout_level with
    | some l => .ok (l * (23/20))
    | none => .error "TypeError: NoneType times float"
  else .ok (sma_50 * (23/20))

/-- `score_buy_signal(ticker, price_data, current_price, phase_info,
rs_series, fundamentals)` — the 6-bucket composite buy score.  Errors
propagate in source order: `detect_breakout` first, then
`calculate_stop_loss`, then the reward-target computation (which in the
source would multiply a `None` breakout level — unreachable, since a set
breakout always has a nonzero level, but embedded faithfully). -/
def score_buy_signal (ticker : String) (pd : PriceData) (current_price : ℚ)
    (phase_info : PhaseDict) (rs_series : List (Option ℚ))
    (fundamentals : Option Fundamentals) : Except String BuySignal :=
  let phase := phase_info.phase
  if ¬ (phase = 1 ∨ phase = 2) then
    .ok { ticker := ticker, is_buy := false, score := 0 }
  else
    let sma_50 := phase_info.sma_50.getD 0
    let sma_200 := phase_info.sma_200.getD 0
    let slope_50 := phase_info.slope_50.getD 0
    let slope_200 := phase_info.slope_200.getD 0
    let distance_50 := phase_info.distance_from_50sma.getD 0
    let distance_200 := phase_info.distance_from_200sma.getD 0
    let stage_quality : ℚ :=
      if phase = 2 then
        min 15 (max 0 (distance_50 / 15 * 10 + distance_200 / 20 * 5)) +
          min 15 (max 0 (slope_50 / (8/100) * 10 + slope_200 / (5/100) * 5))
      else
        min 12 (max 0 ((distance_50 + 10) / 15 * 12)) +
          (let smaSep := if sma_200 > 0 then (sma_50 - sma_200) / sma_200 else 0
           let slope_factor := min 1 (max 0 (slope_50 / (3/100)))
           min 13 (max 0 (smaSep * 200 * slope_factor)))
    match detect_breakout pd current_price phase_info with
    | .error e => .error e
    | .ok breakout_info =>
      let trend_score := stage_quality +
        (if breakout_info.is_breakout then 10 else 0) -
        (if distance_50 > 30 then 10 else if distance_50 > 20 then 5 else 0)
      let trendFinal := min trend_score 50
      let fundamental_score := fundamentalsScore fundamentals
      let volume_score : ℚ :=
        if pd.volume.isSome ∧ 30 ≤ pd.close.length then
          volumeBehaviorScore pd.close (pd.volume.getD [])
        else 5
      let rs_score : ℚ :=
        if 20 ≤ rs_series.length ∧ ¬ rs_series.all (fun o => o.isNone) then
          min 10 (max 0 ((calculate_rs_slope rs_series 20 + 1) / 5 * 10))
        else 5
      match calculate_stop_loss pd current_price phase_info phase with
      | .error e => .error e
      | .ok stop_loss =>
        -- `risk_amount = current_price - stop_loss if stop_loss else 0`:
        -- a NaN stop (`none`) is truthy in Python; the NaN difference then
        -- fails the `risk_amount > 0` test exactly like our `none` does.
        let risk_amount : Option ℚ :=
          match stop_loss with
          | none => none
          | some s => if s ≠ 0 then some (current_price - s) else some 0
        match buyRewardTarget phase current_price sma_50 breakout_info with
        | .error e => .error e
        | .ok reward_target =>
          let reward_amount := reward_target - current_price
          let rrPair : ℚ × ℚ :=
            match risk_amount with
            | some r =>
              if r > 0 then
                (min 5 (max 0 ((reward_amount / r - 1) * (5/2))),
                 pyRound 2 (reward_amount / r))
              else (0, 0)
            | none => (0, 0)
          let entry_score : ℚ :=
            max 0 (3 - max 0 distance_50 / 10 * 3) +
              (if phase = 2 then max 0 (2 - max 0 distance_50 / 15 * 2)
               else max 0 (2 - |distance_50 - 1| / 6 * 2))
          let score := trendFinal + fundamental_score + volume_score + rs_score +
            rrPair.1 + entry_score
          let final_score := max 0 (min score 110)
          .ok { ticker := ticker
                is_buy := decide (final_score ≥ 60)
                score := pyRound 1 final_score
                phase := phase
                breakout_price :=
                  if breakout_info.is_breakout then breakout_info.breakout_level
                  else none
                stop_loss :=
                  match stop_loss with
                  | none => none
                  | some s => if s ≠ 0 then some (pyRound 2 s) else none
                risk_reward := rrPair.2
                entry_quality :=
                  if entry_score ≥ 4 then "Good"
                  else if entry_score ≥ 2 then "Extended" else "Poor"
                trend_score := trendFinal
                fundamental_score := fundamental_score
                volume_score := volume_score
                rs_score := rs_score
                rr_score := pyRound 2 rrPair.1
                entry_score := pyRound 2 entry_score }

/-- Sell-signal result; the source's early wrong-phase return carries no
`phase` key, so that field defaults to 0 there. -/
structure SellSignal where
  ticker : String
  is_sell : Bool
  score : ℚ
  severity : String
  phase : ℤ := 0
  breakdown_level : Option ℚ := none
  breakdown_score : ℚ := 0
  volume_score : ℚ := 0
  rs_score : ℚ := 0
deriving DecidableEq, Repr

/-- The below-50-SMA part of the sell breakdown bucket: the tiered bonus
and the `breakdown_level` detail.  Dividing by a zero SMA with the price
below it raises `ZeroDivisionError` in the source. -/
def sellBreakdownBelow (current_price : ℚ) (sma_50 : ℚ) :
    Except String (ℚ × Option ℚ) :=
  if current_price < sma_50 then
    if sma_50 = 0 then .error "ZeroDivisionError: float division by zero"
    else
      let pct_below := (sma_50 - current_price) / sma_50 * 100
      .ok ((if pct_below > 5 then 20 else if pct_below > 2 then 15 else 10),
        some (pyRound 2 sma_50))
  else .ok (0, none)

/-- `score_sell_signal(ticker, price_data, current_price, phase_info,
rs_series, previous_phase)`.  The `pct_below` computation divides by the
50-SMA, so a zero SMA with the price below it raises
`ZeroDivisionError` in the source — surfaced here as an error. -/
def score_sell_signal (ticker : String) (pd : PriceData) (current_price : ℚ)
    (phase_info : PhaseDict) (rs_series : List (Option ℚ))
    (previous_phase : Option ℤ) : Except String SellSignal :=
  let phase := phase_info.phase
  if ¬ (phase = 3 ∨ phase = 4) then
    .ok { ticker := ticker, is_sell := false, score := 0, severity := "none" }
  else
    let sma_50 := phase_info.sma_50.getD 0
    let slope_50 := phase_info.slope_50.getD 0
    let transition : ℚ :=
      if previous_phase = some 2 ∧ (phase = 3 ∨ phase = 4) then 30
      else if phase = 4 then 25
      else if phase = 3 then 15
      else 0
    match sellBreakdownBelow current_price sma_50 with
    | .error e => .error e
    | .ok below =>
      let breakdown_score := transition + below.1 + (if slope_50 < 0 then 10 else 0)
      let breakdownFinal := min breakdown_score 60
      let volume_score : ℚ :=
        if pd.volume.isSome ∧ 20 ≤ pd.close.length then
          let vr := calculateVolumeRat (pd.volume.getD []) 20
          if vr ≥ 3/2 then 30
          else if vr ≥ 13/10 then 20
          else if vr ≥ 11/10 then 10
          else 5
        else 0
      let rs_score : ℚ :=
        if 15 ≤ rs_series.length then
          let rsl := calculate_rs_slope rs_series 15
          if rsl < 0 then
            (if rsl < -2 then 10 else if rsl < -1 then 7 else 5)
          else 0
        else 0
      let failed_breakout : ℚ :=
        if 20 ≤ pd.close.length ∧ listMax (takeLast 20 pd.close) > sma_50 ∧
            current_price < sma_50 then 10
        else 0
      let final_score :=
        max 0 (min (breakdownFinal + volume_score + rs_score + failed_breakout) 100)
      .ok { ticker := ticker
            is_sell := decide (final_score ≥ 60)
            score := pyRound 1 final_score
            severity :=
              if final_score ≥ 80 then "critical"
              else if final_score ≥ 70 then "high"
              else if final_score ≥ 60 then "medium"
              else "low"
            phase := phase
            breakdown_level := below.2
            breakdown_score := breakdownFinal
            volume_score := volume_score
            rs_score := rs_score }

/-! ## General lemmas -/

/-- An indexed `Finset.range` sum of `getD` values is the list sum. -/
theorem sum_range_getD (l : List ℚ) :
    ∑ i ∈ Finset.range l.length, l.getD i 0 = l.sum := by
  induction l with
  | nil => simp
  | cons h t ih =>
    rw [List.length_cons, Finset.sum_range_succ']
    simp only [List.getD_cons_succ, List.getD_cons_zero, List.sum_cons]
    rw [ih]; ring

/-- Expansion of the symmetric double sum of products of differences. -/
theorem double_sum_sub_mul (n : ℕ) (f g : ℕ → ℚ) :
    ∑ i ∈ Finset.range n, ∑ j ∈ Finset.range n, (f i - f j) * (g i - g j) =
      2 * ((n : ℚ) * (∑ i ∈ Finset.range n, f i * g i) -
        (∑ i ∈ Finset.range n, f i) * (∑ i ∈ Finset.range n, g i)) := by
  have step : ∀ i ∈ Finset.range n,
      ∑ j ∈ Finset.range n, (f i - f j) * (g i - g j) =
        (n : ℚ) * (f i * g i) - f i * (∑ j ∈ Finset.range n, g j) -
          (∑ j ∈ Finset.range n, f j) * g i +
          (∑ j ∈ Finset.range n, f j * g j) := by
    intro i _
    have expand : ∀ j ∈ Finset.range n,
        (f i - f j) * (g i - g j) =
          f i * g i - f i * g j - f j * g i + f j * g j := by
      intro j _; ring
    rw [Finset.sum_congr rfl expand]
    rw [Finset.sum_add_distrib, Finset.sum_sub_distrib, Finset.sum_sub_distrib,
      Finset.sum_const, Finset.card_range, nsmul_eq_mul, ← Finset.mul_sum,
      ← Finset.sum_mul]
  rw [Finset.sum_congr rfl step]
  rw [Finset.sum_add_distrib, Finset.sum_sub_distrib, Finset.sum_sub_distrib,
    Finset.sum_const, Finset.card_range, nsmul_eq_mul, ← Finset.mul_sum,
    ← Finset.sum_mul, ← Finset.mul_sum]
  ring

/-- For a strictly increasing value function and at least two points, the
OLS covariance numerator `n·Σ i·yᵢ − (Σ i)·(Σ yᵢ)` is strictly positive. -/
theorem ols_num_pos (n : ℕ) (y : ℕ → ℚ) (hn : 2 ≤ n)
    (hy : ∀ i j, i < j → j < n → y i < y j) :
    0 < (n : ℚ) * (∑ i ∈ Finset.range n, (i : ℚ) * y i) -
      (∑ i ∈ Finset.range n, (i : ℚ)) * (∑ i ∈ Finset.range n, y i) := by
  have hd := double_sum_sub_mul n (fun i => (i : ℚ)) y
  have hterm : ∀ i j, i < n → j < n → 0 ≤ ((i : ℚ) - (j : ℚ)) * (y i - y j) := by
    intro i j hi hj
    rcases lt_trichotomy i j with h | h | h
    · have h1 : (i : ℚ) < (j : ℚ) := by exact_mod_cast h
      have h2 : y i < y j := hy i j h hj
      nlinarith
    · subst h; simp
    · have h1 : (j : ℚ) < (i : ℚ) := by exact_mod_cast h
      have h2 : y j < y i := hy j i h hi
      nlinarith
  have hpos : 0 < ∑ i ∈ Finset.range n,
      ∑ j ∈ Finset.range n, ((i : ℚ) - (j : ℚ)) * (y i - y j) := by
    apply Finset.sum_pos'
    · intro i hi
      apply Finset.sum_nonneg
      intro j hj
      exact hterm i j (Finset.mem_range.mp hi) (Finset.mem_range.mp hj)
    · refine ⟨1, Finset.mem_range.mpr (by omega), ?_⟩
      apply Finset.sum_pos'
      · intro j hj
        exact hterm 1 j (by omega) (Finset.mem_range.mp hj)
      · refine ⟨0, Finset.mem_range.mpr (by omega), ?_⟩
        have h2 : y 0 < y 1 := hy 0 1 (by omega) (by omega)
        have : ((1 : ℕ) : ℚ) - ((0 : ℕ) : ℚ) = 1 := by norm_num
        rw [this]; nlinarith
  rw [hd] at hpos
  linarith

/-- The x-variance numerator `n·Σ i² − (Σ i)²` is positive for `n ≥ 2`. -/
theorem ols_den_pos (n : ℕ) (hn : 2 ≤ n) :
    0 < (n : ℚ) * (∑ i ∈ Finset.range n, (i : ℚ) ^ 2) -
      (∑ i ∈ Finset.range n, (i : ℚ)) ^ 2 := by
  have h := ols_num_pos n (fun i => (i : ℚ)) hn
    (fun i j hij _ => by dsimp only; exact_mod_cast hij)
  have hsq : ∀ i ∈ Finset.range n, (i : ℚ) * (i : ℚ) = (i : ℚ) ^ 2 := by
    intro i _; ring
  rw [Finset.sum_congr rfl hsq] at h
  nlinarith [h]

/-- `pyRoundInt` is bounded by the floor and the floor plus one. -/
theorem pyRoundInt_bounds (x : ℚ) : ⌊x⌋ ≤ pyRoundInt x ∧ pyRoundInt x ≤ ⌊x⌋ + 1 := by
  unfold pyRoundInt
  split
  · omega
  · split
    · omega
    · split <;> omega

/-- Half-to-even rounding is monotone. -/
theorem pyRoundInt_mono {x y : ℚ} (h : x ≤ y) : pyRoundInt x ≤ pyRoundInt y := by
  rcases lt_or_eq_of_le (Int.floor_le_floor h) with hf | hf
  · calc pyRoundInt x ≤ ⌊x⌋ + 1 := (pyRoundInt_bounds x).2
      _ ≤ ⌊y⌋ := by omega
      _ ≤ pyRoundInt y := (pyRoundInt_bounds y).1
  · have hfr : x - ((⌊x⌋ : ℤ) : ℚ) ≤ y - ((⌊y⌋ : ℤ) : ℚ) := by
      rw [← hf]; linarith
    by_cases h1 : y - ((⌊y⌋ : ℤ) : ℚ) < 1/2
    · have hL : pyRoundInt x = ⌊x⌋ := by
        unfold pyRoundInt; rw [if_pos (by linarith)]
      have hR : pyRoundInt y = ⌊y⌋ := by
        unfold pyRoundInt; rw [if_pos h1]
      omega
    · by_cases h2 : 1/2 < y - ((⌊y⌋ : ℤ) : ℚ)
      · have hR : pyRoundInt y = ⌊y⌋ + 1 := by
          unfold pyRoundInt; rw [if_neg h1, if_pos h2]
        have := (pyRoundInt_bounds x).2
        omega
      · by_cases h3 : x - ((⌊x⌋ : ℤ) : ℚ) < 1/2
        · have hL : pyRoundInt x = ⌊x⌋ := by
            unfold pyRoundInt; rw [if_pos h3]
          have := (pyRoundInt_bounds y).1
          omega
        · have hxy : x = y := by
            have e1 : x - ((⌊x⌋ : ℤ) : ℚ) = 1/2 := by linarith
            have e2 : y - ((⌊y⌋ : ℤ) : ℚ) = 1/2 := by linarith
            have e3 : ((⌊x⌋ : ℤ) : ℚ) = ((⌊y⌋ : ℤ) : ℚ) := by exact_mod_cast hf
            linarith
          rw [hxy]

/-- `pyRound` is monotone at every precision. -/
theorem pyRound_mono (n : ℕ) {x y : ℚ} (h : x ≤ y) : pyRound n x ≤ pyRound n y := by
  unfold pyRound
  have hp : (0 : ℚ) < (10 : ℚ) ^ n := by positivity
  have h2 : ((pyRoundInt (x * (10 : ℚ) ^ n) : ℤ) : ℚ) ≤
      ((pyRoundInt (y * (10 : ℚ) ^ n) : ℤ) : ℚ) := by
    exact_mod_cast pyRoundInt_mono (by nlinarith)
  exact (div_le_div_iff_of_pos_right hp).mpr h2

/-- With at least `period ≥ 1` prices the rolling SMA has a defined entry,
so its `all isNone` test is false. -/
theorem calculate_sma_not_all_none (prices : List ℚ) (period : ℕ)
    (h1 : 1 ≤ period) (h2 : period ≤ prices.length) :
    (calculate_sma prices period).all (fun o => o.isNone) = false := by
  unfold calculate_sma
  rw [if_neg (by omega)]
  rw [List.all_eq_false]
  refine ⟨(fun i => if i + 1 < period then none
    else some (((prices.drop (i + 1 - period)).take period).sum / (period : ℚ)))
      (period - 1), ?_, ?_⟩
  · exact List.mem_map_of_mem _ (List.mem_range.mpr (by omega))
  · simp only [if_neg (by omega : ¬ (period - 1 + 1 < period)), Option.isNone_some,
      Bool.false_eq_true, not_false_iff]

/-! ## C1 — `detect_breakout` on short history -/

/-- C9-companion input: 20 bars of constant close 10, a phase-1 dict with a
50-SMA of 50, and a current price of 11 above the 20-bar pivot high 10. -/
def pdC1 : PriceData :=
  { high := [], low := [], close := List.replicate 20 (10 : ℚ), volume := none }

/-- C1 (code_bug): the claim says `detect_breakout` never raises for
phase ∈ {1,2}, including frames with 20 ≤ bars < 60 where the pivot high
exists but the base high is `None`.  The code instead evaluates
`pivot_high < base_high` with `base_high = None` and raises `TypeError` —
here, at 20 constant closes of 10 with current price 11. -/
theorem C1_detect_breakout_raises_on_short_history :
    detect_breakout pdC1 11 { phase := 1, sma_50 := some 50 } =
      Except.error "TypeError: comparison between float and NoneType" := by
  with_unfolding_all rfl

/-! ## C9 — `classify_phase` with fewer than 200 bars -/

/-- C9: with fewer than 200 rows, `classify_phase` returns the
Insufficient-Data state: phase 0 with confidence 0, regardless of the
row contents and of the square-root function. -/
theorem C9_classify_phase_short_history (sq : ℚ → ℚ) (pd : PriceData)
    (current_price : ℚ) (h : pd.close.length < 200) :
    (classify_phase sq pd current_price).phase = 0 ∧
    (classify_phase sq pd current_price).confidence = 0 := by
  unfold classify_phase
  rw [if_pos h]
  exact ⟨rfl, rfl⟩

/-- Witness for C9 at the empty frame. -/
theorem C9_witness :
    (PriceData.mk [] [] [] none).close.length < 200 ∧
    (classify_phase (fun _ => 0) (PriceData.mk [] [] [] none) 5).phase = 0 ∧
    (classify_phase (fun _ => 0) (PriceData.mk [] [] [] none) 5).confidence = 0 :=
  ⟨by decide, C9_classify_phase_short_history (fun _ => 0) (PriceData.mk [] [] [] none) 5 (by decide)⟩

/-! ## C3 — trend-template score -/

/-- A phase dict passing exactly 7 of the 8 template criteria (all but
`phase == 2`). -/
def piC3 : PhaseDict :=
  { phase := 1, sma_50 := some 90, sma_150 := some 85, sma_200 := some 80,
    week_52_high := some 105, week_52_low := some 50 }

/-- A rising 20-point 200-SMA series for criterion 3. -/
def smaC3 : List (Option ℚ) := (List.range 20).map (fun i => some ((i : ℚ)))

/-- C3 counterexample: an input passing 7 of 8 criteria yields
`template_score = 87` (the Python `int()` truncation of 87.5), not the
claimed exact `7/8×100 = 87.5`. -/
theorem C3_counterexample :
    (validate_minervini_trend_template 100 piC3 smaC3).criteria_passed = 7 ∧
    ((validate_minervini_trend_template 100 piC3 smaC3).template_score : ℚ) ≠
      ((validate_minervini_trend_template 100 piC3 smaC3).criteria_passed : ℚ) / 8 * 100 := by
  have h1 : (validate_minervini_trend_template 100 piC3 smaC3).criteria_passed = 7 := by
    with_unfolding_all rfl
  have h2 : (validate_minervini_trend_template 100 piC3 smaC3).template_score = 87 := by
    with_unfolding_all rfl
  refine ⟨h1, ?_⟩
  rw [h1, h2]
  norm_num

/-- C3 (amended): `template_score` is the integer truncation of
`criteria_passed / 8 × 100` (87 for 7 of 8), and `passes_template` holds
exactly when at least 7 criteria pass. -/
theorem C3_template_score_fields (current_price : ℚ) (phase_info : PhaseDict)
    (sma_200_series : List (Option ℚ)) :
    (validate_minervini_trend_template current_price phase_info sma_200_series).template_score =
      pyInt (((validate_minervini_trend_template current_price phase_info
        sma_200_series).criteria_passed : ℚ) / 8 * 100) ∧
    ((validate_minervini_trend_template current_price phase_info
        sma_200_series).passes_template = true ↔
      7 ≤ (validate_minervini_trend_template current_price phase_info
        sma_200_series).criteria_passed) ∧
    ((validate_minervini_trend_template current_price phase_info
        sma_200_series).criteria_passed = 7 →
      (validate_minervini_trend_template current_price phase_info
        sma_200_series).template_score = 87) := by
  refine ⟨rfl, ?_, ?_⟩
  · exact decide_eq_true_iff
  · intro h
    show pyInt (((validate_minervini_trend_template current_price phase_info
      sma_200_series).criteria_passed : ℚ) / 8 * 100) = 87
    rw [h]
    with_unfolding_all rfl

/-- Witness for C3's amended theorem at the 7-of-8 input. -/
theorem C3_witness :
    (validate_minervini_trend_template 100 piC3 smaC3).criteria_passed = 7 ∧
    (validate_minervini_trend_template 100 piC3 smaC3).template_score = 87 :=
  ⟨by with_unfolding_all rfl,
   (C3_template_score_fields 100 piC3 smaC3).2.2 (by with_unfolding_all rfl)⟩

/-! ## C4 — sell-signal volume confirmation -/

/-- C4 (amended): for phase ∈ {3,4}, the volume-confirmation component is
tiered by `calculate_volume_ratio(volume, 20)` — ≥1.5→30, ≥1.3→20,
≥1.1→10, else 5 (hence at least 5) — whenever the `Volume` column exists
and there are at least 20 bars; with no `Volume` column or fewer than 20
bars the component is 0, not 5. -/
theorem C4_volume_component (ticker : String) (pd : PriceData) (current_price : ℚ)
    (phase_info : PhaseDict) (rs_series : List (Option ℚ)) (previous_phase : Option ℤ)
    (r : SellSignal)
    (hphase : phase_info.phase = 3 ∨ phase_info.phase = 4)
    (hok : score_sell_signal ticker pd current_price phase_info rs_series previous_phase =
      Except.ok r) :
    ((pd.volume.isSome ∧ 20 ≤ pd.close.length) →
      r.volume_score =
        (if calculateVolumeRat (pd.volume.getD []) 20 ≥ 3/2 then 30
         else if calculateVolumeRat (pd.volume.getD []) 20 ≥ 13/10 then 20
         else if calculateVolumeRat (pd.volume.getD []) 20 ≥ 11/10 then 10 else 5) ∧
      5 ≤ r.volume_score) ∧
    (¬ (pd.volume.isSome ∧ 20 ≤ pd.close.length) → r.volume_score = 0) := by
  unfold score_sell_signal at hok
  rw [if_neg (not_not_intro hphase)] at hok
  simp only [] at hok
  cases hbe : sellBreakdownBelow current_price (phase_info.sma_50.getD 0) with
  | error e =>
    rw [hbe] at hok
    exact Except.noConfusion hok
  | ok below =>
    rw [hbe] at hok
    rw [Except.ok.injEq] at hok
    subst hok
    dsimp only
    constructor
    · intro hc
      rw [if_pos hc]
      refine ⟨rfl, ?_⟩
      split
      · norm_num
      · split
        · norm_num
        · split <;> norm_num
    · intro hc
      rw [if_neg hc]

/-- A 25-bar frame with no `Volume` column. -/
def pdC4 : PriceData :=
  { high := [], low := [], close := List.replicate 25 (10 : ℚ), volume := none }

/-- A 21-bar frame whose 20-bar volume ratio is exactly 1.5. -/
def pdC4w : PriceData :=
  { high := [], low := [], close := List.replicate 21 (10 : ℚ),
    volume := some (List.replicate 20 (100 : ℚ) ++ [150]) }

/-- C4 counterexample: with no `Volume` column the volume-confirmation
component of the sell score is 0, not the claimed minimum of 5. -/
theorem C4_counterexample :
    Except.map SellSignal.volume_score
      (score_sell_signal "T" pdC4 100
        { phase := 4, sma_50 := some 50, slope_50 := some 1 } [] none) =
      Except.ok 0 ∧
    ¬ ((5 : ℚ) ≤ 0) :=
  ⟨by with_unfolding_all rfl, by norm_num⟩

/-- Witness for C4's amended theorem: volume ratio 1.5 → component 30. -/
theorem C4_witness :
    SellSignal.volume_score
        (SellSignal.mk "T" false 45 "low" 3 none 15 30 0) =
      (if calculateVolumeRat (pdC4w.volume.getD []) 20 ≥ 3/2 then 30
       else if calculateVolumeRat (pdC4w.volume.getD []) 20 ≥ 13/10 then 20
       else if calculateVolumeRat (pdC4w.volume.getD []) 20 ≥ 11/10 then 10 else 5) ∧
    (5 : ℚ) ≤ SellSignal.volume_score
        (SellSignal.mk "T" false 45 "low" 3 none 15 30 0) :=
  (C4_volume_component "T" pdC4w 100
    { phase := 3, sma_50 := some 50, slope_50 := some 1 } [] none
    (SellSignal.mk "T" false 45 "low" 3 none 15 30 0)
    (Or.inl rfl) (by with_unfolding_all rfl)).1
    (by constructor
        · with_unfolding_all rfl
        · with_unfolding_all decide)

/-! ## C6 — phase-2 stop-loss risk band -/

/-- A trailing slice of a nonempty list is nonempty (for positive `n`). -/
theorem takeLast_ne_nil {α : Type} {l : List α} {n : ℕ} (hn : 0 < n)
    (h : l ≠ []) : takeLast n l ≠ [] := by
  unfold takeLast
  rw [Ne, List.drop_eq_nil_iff, not_le]
  have : 0 < l.length := List.length_pos.mpr h
  omega

/-- C6 (amended): for a phase-2 call with positive current price and a
nonempty `Low` column, the stop loss is a defined number lying between
90% and 97% of the current price — i.e. the risk fraction lies in
[3%, 10%].  (On an empty frame the pandas `min` is NaN and the returned
stop is NaN, see the counterexample.) -/
theorem C6_stop_loss_risk_band (pd : PriceData) (current_price : ℚ)
    (phase_info : PhaseDict)
    (hpos : 0 < current_price) (hlow : pd.low ≠ []) :
    ((calculate_stop_loss pd current_price phase_info 2).toOption.join).isSome = true ∧
    ∀ s, calculate_stop_loss pd current_price phase_info 2 = Except.ok (some s) →
      (9/10) * current_price ≤ s ∧ s ≤ (97/100) * current_price := by
  have hne : (if 10 ≤ pd.close.length then takeLast 10 pd.low else pd.low) ≠ [] := by
    split
    · exact takeLast_ne_nil (by norm_num) hlow
    · exact hlow
  obtain ⟨m, hm⟩ : ∃ m,
      pandasMin (if 10 ≤ pd.close.length then takeLast 10 pd.low else pd.low) = some m := by
    cases hL : (if 10 ≤ pd.close.length then takeLast 10 pd.low else pd.low) with
    | nil => exact absurd hL hne
    | cons h t => exact ⟨t.foldl min h, rfl⟩
  unfold calculate_stop_loss
  rw [if_neg (by exact hpos.ne'), if_pos rfl, hm]
  constructor
  · rfl
  · intro s hs
    simp only [Except.ok.injEq, Option.some.injEq] at hs
    subst hs
    generalize (m * (995/1000) ⊔ (if phase_info.sma_50.getD 0 > 0 then
      phase_info.sma_50.getD 0 * (99/100) else m * (995/1000))) = stop0
    split
    · constructor <;> nlinarith
    · split
      · constructor <;> nlinarith
      · rename_i h1 h2
        rw [not_lt] at h1 h2
        rw [div_le_iff₀ hpos] at h2
        rw [le_div_iff₀ hpos] at h1
        constructor <;> linarith

/-- One-bar frame whose phase-2 stop lands at the 3%-risk clamp. -/
def pdC6 : PriceData :=
  { high := [], low := [100], close := [100], volume := none }

/-- C6 counterexample: on an empty frame, phase 2, price 100, the source
computes `min()` of an empty series (NaN) and returns a NaN stop — there
is no numeric stop, so the risk fraction is NaN, not a number in
[3%, 10%]. -/
theorem C6_counterexample :
    calculate_stop_loss (PriceData.mk [] [] [] none) 100
      { phase := 2, sma_50 := some 50 } 2 = Except.ok none := by
  with_unfolding_all rfl

/-- Witness for C6's amended theorem: stop 97 at price 100. -/
theorem C6_witness :
    (9/10 : ℚ) * 100 ≤ 97 ∧ (97 : ℚ) ≤ (97/100) * 100 :=
  (C6_stop_loss_risk_band pdC6 100 { phase := 2, sma_50 := some 100 }
    (by norm_num) (List.cons_ne_nil _ _)).2 97 (by with_unfolding_all rfl)

/-! ## C10 — internal consistency of breakout records -/

/-- A truthy optional float is a nonzero number. -/
theorem pyTruthy_getD_ne_zero {o : Option ℚ} (h : pyTruthy o = true) :
    o.getD 0 ≠ 0 := by
  cases o with
  | none => simp [pyTruthy] at h
  | some x => simpa [pyTruthy] using h

/-- A truthy level yields a `some` breakout level after rounding. -/
theorem mkBreakoutLevel_isSome {x : ℚ} (h : x ≠ 0) :
    (mkBreakoutLevel x).isSome = true := by
  unfold mkBreakoutLevel
  rw [if_neg h]
  rfl

/-- Results of the 50-SMA breakout branch are internally consistent. -/
theorem detectBreakoutSmaBranch_consistent (close : List ℚ) (current_price : ℚ)
    (sma_50 : Option ℚ) (r : Breakout)
    (hok : detectBreakoutSmaBranch close current_price sma_50 = Except.ok r) :
    (r.is_breakout = true →
      r.breakout_level.isSome = true ∧ r.breakout_type = some "50 SMA Breakout") ∧
    (r.is_breakout = false → r.breakout_level = none ∧ r.breakout_type = none) := by
  unfold detectBreakoutSmaBranch at hok
  split at hok
  · rename_i hg
    split at hok
    · exact Except.noConfusion hok
    · simp only [] at hok
      split at hok
      · rw [Except.ok.injEq] at hok
        subst hok
        exact ⟨fun _ => ⟨mkBreakoutLevel_isSome (pyTruthy_getD_ne_zero hg.1), rfl⟩,
          fun h => Bool.noConfusion h⟩
      · rw [Except.ok.injEq] at hok
        subst hok
        exact ⟨fun h => Bool.noConfusion h, fun _ => ⟨rfl, rfl⟩⟩
  · rw [Except.ok.injEq] at hok
    subst hok
    exact ⟨fun h => Bool.noConfusion h, fun _ => ⟨rfl, rfl⟩⟩

/-- C10: whenever `detect_breakout` returns a record (for positive close
prices and a positive `sma_50` in the phase dict), the record is
internally consistent: a breakout carries a non-null rounded level and
one of the three named kinds; a non-breakout carries null level and
null kind. -/
theorem C10_breakout_record_consistent (pd : PriceData) (current_price : ℚ)
    (phase_info : PhaseDict) (r : Breakout) (s50 : ℚ)
    (hclose : ∀ c ∈ pd.close, 0 < c)
    (hsma : phase_info.sma_50 = some s50) (hs50 : 0 < s50)
    (hok : detect_breakout pd current_price phase_info = Except.ok r) :
    (r.is_breakout = true →
      r.breakout_level.isSome = true ∧
      (r.breakout_type = some "Base Breakout" ∨
       r.breakout_type = some "Pivot Breakout" ∨
       r.breakout_type = some "50 SMA Breakout")) ∧
    (r.is_breakout = false → r.breakout_level = none ∧ r.breakout_type = none) := by
  unfold detect_breakout at hok
  split at hok
  · rw [Except.ok.injEq] at hok
    subst hok
    exact ⟨fun h => Bool.noConfusion h, fun _ => ⟨rfl, rfl⟩⟩
  · simp only [] at hok
    split at hok
    · rename_i hg
      rw [Except.ok.injEq] at hok
      subst hok
      exact ⟨fun _ => ⟨mkBreakoutLevel_isSome (pyTruthy_getD_ne_zero hg.1), Or.inl rfl⟩,
        fun h => Bool.noConfusion h⟩
    · split at hok
      · rename_i hg2
        split at hok
        · exact Except.noConfusion hok
        · split at hok
          · rw [Except.ok.injEq] at hok
            subst hok
            exact ⟨fun _ =>
                ⟨mkBreakoutLevel_isSome (pyTruthy_getD_ne_zero hg2.1), Or.inr (Or.inl rfl)⟩,
              fun h => Bool.noConfusion h⟩
          · have h := detectBreakoutSmaBranch_consistent pd.close current_price
              phase_info.sma_50 r hok
            exact ⟨fun hb => ⟨(h.1 hb).1, Or.inr (Or.inr (h.1 hb).2)⟩, h.2⟩
      · have h := detectBreakoutSmaBranch_consistent pd.close current_price
          phase_info.sma_50 r hok
        exact ⟨fun hb => ⟨(h.1 hb).1, Or.inr (Or.inr (h.1 hb).2)⟩, h.2⟩

/-- A 60-bar frame of positive closes for the C10 witness. -/
def pdC10 : PriceData :=
  { high := [], low := [], close := List.replicate 60 (10 : ℚ), volume := none }

/-- Witness for C10: a base breakout at current price 11 over base high 10
yields a consistent record. -/
theorem C10_witness :
    (Breakout.mk true (some 10) (some "Base Breakout")).breakout_level.isSome = true ∧
    ((Breakout.mk true (some 10) (some "Base Breakout")).breakout_type = some "Base Breakout" ∨
     (Breakout.mk true (some 10) (some "Base Breakout")).breakout_type = some "Pivot Breakout" ∨
     (Breakout.mk true (some 10) (some "Base Breakout")).breakout_type = some "50 SMA Breakout") :=
  (C10_breakout_record_consistent pdC10 11 { phase := 2, sma_50 := some 5 }
    (Breakout.mk true (some 10) (some "Base Breakout")) 5
    (by intro c hc
        have : c = 10 := List.eq_of_mem_replicate hc
        rw [this]; norm_num)
    rfl (by norm_num) (by with_unfolding_all rfl)).1 rfl

/-! ## C5 — phase-4 priority and confidence -/

/-- C5: with ≥200 bars, price below both the (unrounded) 50- and 200-SMA
and the 50-SMA below the 200-SMA, `classify_phase` takes the Phase-4
branch first (before the Phase-2 test) and returns confidence
70 + 20 (both slopes negative) + 10 (50-slope negative, the intentional
double count), clamped to 100. -/
theorem C5_phase4_priority (sq : ℚ → ℚ) (pd : PriceData) (current_price : ℚ)
    (h200 : 200 ≤ pd.close.length)
    (h1 : current_price < ilocLastO (calculate_sma pd.close 50))
    (h2 : current_price < ilocLastO (calculate_sma pd.close 200))
    (h3 : ilocLastO (calculate_sma pd.close 50) < ilocLastO (calculate_sma pd.close 200)) :
    (classify_phase sq pd current_price).phase = 4 ∧
    (classify_phase sq pd current_price).confidence =
      min (70 + (if calculate_slope (calculate_sma pd.close 50) 20 < 0 ∧
                    calculate_slope (calculate_sma pd.close 200) 20 < 0 then 20 else 0) +
           (if calculate_slope (calculate_sma pd.close 50) 20 < 0 then 10 else 0)) 100 := by
  unfold classify_phase
  rw [if_neg (by omega : ¬ pd.close.length < 200)]
  have ha := calculate_sma_not_all_none pd.close 50 (by norm_num) (by omega)
  have hb := calculate_sma_not_all_none pd.close 200 (by norm_num) (by omega)
  rw [if_neg (by simp [ha, hb])]
  simp only []
  rw [if_pos ⟨h1, h2, h3⟩]
  exact ⟨rfl, rfl⟩

/-- 200 bars: 120 at close 120, then 80 at close 80 (both slopes flat). -/
def pdC5 : PriceData :=
  { high := List.replicate 120 120 ++ List.replicate 80 80,
    low := List.replicate 120 120 ++ List.replicate 80 80,
    close := List.replicate 120 120 ++ List.replicate 80 80,
    volume := none }

/-- Witness for C5 at price 50 (50-SMA 80, 200-SMA 104, flat slopes). -/
theorem C5_witness :
    (classify_phase (fun _ => 0) pdC5 50).phase = 4 ∧
    (classify_phase (fun _ => 0) pdC5 50).confidence =
      min (70 + (if calculate_slope (calculate_sma pdC5.close 50) 20 < 0 ∧
                    calculate_slope (calculate_sma pdC5.close 200) 20 < 0 then 20 else 0) +
           (if calculate_slope (calculate_sma pdC5.close 50) 20 < 0 then 10 else 0)) 100 :=
  C5_phase4_priority (fun _ => 0) pdC5 50
    (by with_unfolding_all decide)
    (by with_unfolding_all decide)
    (by with_unfolding_all decide)
    (by with_unfolding_all decide)

/-! ## C2 — the volume ratio used by `classify_phase` -/

/-- The amended-claim formula, written from the amended spec words: the
most-recent volume divided by the mean of the last 20 volumes *including*
the current bar, defaulting to 1.0 with at most 20 points or a
non-positive mean. -/
def specVolumeRatIncl (volumes : List ℚ) : ℚ :=
  if 20 < volumes.length then
    if 0 < listMean (takeLast 20 volumes) then
      ilocLastQ volumes / listMean (takeLast 20 volumes)
    else 1
  else 1

/-- 200 volumes: 199 bars of 100 and a final bar of 200. -/
def volC2 : List ℚ := List.replicate 199 (100 : ℚ) ++ [200]

/-- 200-bar frame in the Phase-2 branch whose last volume bar is 121:
`calculate_volume_ratio` (exclusive mean) gives 1.21 > 1.2 while the
inline inclusive ratio is 2420/2021 < 1.2, so the claimed +15 volume
bonus does not fire. -/
def pdC2x : PriceData :=
  { high := List.replicate 200 (0 : ℚ),
    low := List.replicate 200 (0 : ℚ),
    close := List.replicate 150 (80 : ℚ) ++ (List.range 50).map (fun i => 80 + (i : ℚ)),
    volume := some (List.replicate 199 (100 : ℚ) ++ [121]) }

/-- C2 counterexample: the ratio `classify_phase` computes inline differs
from `calculate_volume_ratio(volumes, 20)` (the claimed
exclusive-of-current-bar formula) — 40/21 vs 2 on `volC2` — and on
`pdC2x` the claimed formula reads 1.21 > 1.2 yet the classifier's Phase-2
confidence is 70 + 15 (rising 200-slope bonus is 0 here, volume bonus
did not fire), i.e. 70, not 85. -/
theorem C2_counterexample :
    classifyPhaseVolumeRat volC2 ≠ calculateVolumeRat volC2 20 ∧
    calculateVolumeRat (pdC2x.volume.getD []) 20 = 121/100 ∧
    (6/5 : ℚ) < 121/100 ∧
    (classify_phase (fun _ => 0) pdC2x 150).phase = 2 ∧
    (classify_phase (fun _ => 0) pdC2x 150).confidence = 70 := by
  refine ⟨by with_unfolding_all decide, by with_unfolding_all rfl, by norm_num,
    by with_unfolding_all rfl, by with_unfolding_all rfl⟩

/-- C2 (amended): the volume ratio used by `classify_phase` (for both the
Phase-2 +15 bonus and the Phase-1 +10 bonus) is the most-recent volume
over the mean of the last 20 volumes *including* the current bar
(neutral 1.0 on ≤20 points or non-positive mean); in the Phase-2 branch
the confidence is 70 + 15·[200-slope > 0] + 15·[that ratio > 1.2],
clamped to 100. -/
theorem C2_classify_volume_bonus :
    classifyPhaseVolumeRat = specVolumeRatIncl ∧
    ∀ (sq : ℚ → ℚ) (pd : PriceData) (current_price : ℚ),
      200 ≤ pd.close.length →
      ilocLastO (calculate_sma pd.close 50) < current_price →
      ilocLastO (calculate_sma pd.close 200) < ilocLastO (calculate_sma pd.close 50) →
      0 < calculate_slope (calculate_sma pd.close 50) 20 →
      (classify_phase sq pd current_price).phase = 2 ∧
      (classify_phase sq pd current_price).confidence =
        min (70 + (if 0 < calculate_slope (calculate_sma pd.close 200) 20 then 15 else 0) +
             (if 6/5 < specVolumeRatIncl (pd.volume.getD []) then 15 else 0)) 100 := by
  constructor
  · rfl
  · intro sq pd current_price h200 h1 h2 h3
    unfold classify_phase
    rw [if_neg (by omega : ¬ pd.close.length < 200)]
    have ha := calculate_sma_not_all_none pd.close 50 (by norm_num) (by omega)
    have hb := calculate_sma_not_all_none pd.close 200 (by norm_num) (by omega)
    rw [if_neg (by simp [ha, hb])]
    simp only []
    rw [if_neg (fun hcon => absurd hcon.1 (not_lt.mpr h1.le))]
    rw [if_pos ⟨h1, h2, h3⟩]
    exact ⟨rfl, rfl⟩

/-- 200-bar frame in the Phase-2 branch with inclusive volume ratio
260/203 > 1.2 (witness for the amended C2). -/
def pdC2 : PriceData :=
  { high := List.replicate 200 (0 : ℚ),
    low := List.replicate 200 (0 : ℚ),
    close := List.replicate 150 (80 : ℚ) ++ (List.range 50).map (fun i => 80 + (i : ℚ)),
    volume := some (List.replicate 199 (100 : ℚ) ++ [130]) }

/-- Witness for the amended C2 on `pdC2` (confidence 85: the volume bonus
fires, the flat 200-slope bonus does not). -/
theorem C2_witness :
    (classify_phase (fun _ => 0) pdC2 150).phase = 2 ∧
    (classify_phase (fun _ => 0) pdC2 150).confidence =
      min (70 + (if 0 < calculate_slope (calculate_sma pdC2.close 200) 20 then 15 else 0) +
           (if 6/5 < specVolumeRatIncl (pdC2.volume.getD []) then 15 else 0)) 100 :=
  C2_classify_volume_bonus.2 (fun _ => 0) pdC2 150
    (by with_unfolding_all decide)
    (by with_unfolding_all decide)
    (by with_unfolding_all decide)
    (by with_unfolding_all decide)

/-! ## C8 — slope properties -/

/-- `filterMap id` undoes `map some`. -/
theorem filterMap_id_map_some (l : List ℚ) : (l.map some).filterMap id = l := by
  induction l with
  | nil => rfl
  | cons h t ih => simp [ih]

/-- `filterMap id` commutes a pointwise `Option.map`. -/
theorem filterMap_id_map_optmap (f : ℚ → ℚ) (l : List (Option ℚ)) :
    (l.map (Option.map f)).filterMap id = (l.filterMap id).map f := by
  induction l with
  | nil => rfl
  | cons h t ih => cases h <;> simp [ih]

/-- `getD` through a zero-preserving map. -/
theorem getD_map_of_apply_zero (f : ℚ → ℚ) (hf : f 0 = 0) (l : List ℚ) (i : ℕ) :
    (l.map f).getD i 0 = f (l.getD i 0) := by
  rw [List.getD_eq_getD_get?, List.getD_eq_getD_get?, List.get?_map]
  cases l.get? i with
  | none => simp [hf]
  | some a => rfl

/-- `getD` of a replicate inside the range. -/
theorem getD_replicate_of_lt (c : ℚ) (n i : ℕ) (h : i < n) :
    (List.replicate n c).getD i 0 = c := by
  induction n generalizing i with
  | zero => omega
  | succ m ih =>
    cases i with
    | zero => rfl
    | succ j => exact ih j (by omega)

/-- `getD` through a `drop`. -/
theorem getD_drop_add (l : List ℚ) (k i : ℕ) :
    (l.drop k).getD i 0 = l.getD (k + i) 0 := by
  rw [List.getD_eq_getD_get?, List.getD_eq_getD_get?, List.get?_drop]

/-- A mapped-`some` list is never all-NaN when nonempty. -/
theorem all_isNone_map_some (ys : List ℚ) (h : ys ≠ []) :
    (ys.map some).all (fun o => o.isNone) = false := by
  cases ys with
  | nil => exact absurd rfl h
  | cons a t => rfl

/-- Pointwise `Option.map` preserves the all-NaN test. -/
theorem all_isNone_map_optmap (f : ℚ → ℚ) (l : List (Option ℚ)) :
    (l.map (Option.map f)).all (fun o => o.isNone) = l.all (fun o => o.isNone) := by
  induction l with
  | nil => rfl
  | cons h t ih => cases h <;> simp [ih]

/-- `calculate_slope` of a perfectly flat series is 0 (for every length and
every lookback). -/
theorem calculate_slope_const (c : ℚ) (n periods : ℕ) :
    calculate_slope (List.replicate n (some c)) periods = 0 := by
  unfold calculate_slope
  split
  · rfl
  · simp only []
    have hrec : ((List.replicate n (some c)).drop
        ((List.replicate n (some c)).length - periods)).filterMap id =
        List.replicate (n - ((List.replicate n (some c)).length - periods)) c := by
      rw [List.drop_replicate]
      have h2 : List.replicate (n - ((List.replicate n (some c)).length - periods))
          (some c) =
          (List.replicate (n - ((List.replicate n (some c)).length - periods)) c).map
            some := by
        rw [List.map_replicate]
      rw [h2, filterMap_id_map_some]
    rw [hrec]
    split
    · rfl
    · set m := n - ((List.replicate n (some c)).length - periods) with hm
      have hgd : ∀ i ∈ Finset.range (List.replicate m c).length,
          (List.replicate m c).getD i 0 = c := by
        intro i hi
        exact getD_replicate_of_lt c m i
          (by simpa using Finset.mem_range.mp hi)
      have hsy : (∑ i ∈ Finset.range (List.replicate m c).length,
          (List.replicate m c).getD i 0) =
          ((List.replicate m c).length : ℚ) * c := by
        rw [Finset.sum_congr rfl hgd, Finset.sum_const, Finset.card_range,
          nsmul_eq_mul]
      have hsxy : (∑ i ∈ Finset.range (List.replicate m c).length,
          (i : ℚ) * (List.replicate m c).getD i 0) =
          c * (∑ i ∈ Finset.range (List.replicate m c).length, (i : ℚ)) := by
        rw [Finset.mul_sum]
        apply Finset.sum_congr rfl
        intro i hi
        rw [hgd i hi]; ring
      rw [hsy, hsxy]
      split
      · rfl
      · have hz : ((List.replicate m c).length : ℚ) *
            (c * (∑ i ∈ Finset.range (List.replicate m c).length, (i : ℚ))) -
            (∑ i ∈ Finset.range (List.replicate m c).length, (i : ℚ)) *
              (((List.replicate m c).length : ℚ) * c) = 0 := by ring
        rw [hz, zero_div]
        split
        · rfl
        · rw [zero_div, zero_mul]

/-- `calculate_slope` of a strictly increasing all-defined series whose
lookback window has positive mean is strictly positive. -/
theorem calculate_slope_pos_of_increasing (ys : List ℚ) (periods : ℕ)
    (hp2 : 2 ≤ periods) (hpl : periods ≤ ys.length)
    (hmono : ∀ i j, i < j → j < ys.length → ys.getD i 0 < ys.getD j 0)
    (hmean : 0 < listMean (takeLast periods ys)) :
    0 < calculate_slope (ys.map some) periods := by
  unfold calculate_slope
  have hne : ys ≠ [] := by
    intro h
    rw [h] at hpl
    simp at hpl
    omega
  rw [if_neg (not_or.mpr ⟨by rw [List.length_map]; omega,
    by rw [all_isNone_map_some ys hne]; simp⟩)]
  simp only []
  have hrec : ((ys.map some).drop ((ys.map some).length - periods)).filterMap id =
      ys.drop (ys.length - periods) := by
    rw [List.length_map, ← List.map_drop, filterMap_id_map_some]
  rw [hrec]
  have hwlen : (ys.drop (ys.length - periods)).length = periods := by
    rw [List.length_drop]
    omega
  rw [if_neg (by omega : ¬ (ys.drop (ys.length - periods)).length < 2)]
  have hden := ols_den_pos (ys.drop (ys.length - periods)).length (by omega)
  rw [if_neg hden.ne']
  have hwmono : ∀ i j, i < j → j < (ys.drop (ys.length - periods)).length →
      (ys.drop (ys.length - periods)).getD i 0 <
        (ys.drop (ys.length - periods)).getD j 0 := by
    intro i j hij hj
    rw [getD_drop_add, getD_drop_add]
    exact hmono _ _ (by omega) (by omega)
  have hnum := ols_num_pos (ys.drop (ys.length - periods)).length
    (fun i => (ys.drop (ys.length - periods)).getD i 0) (by omega) hwmono
  have hsy : (∑ i ∈ Finset.range (ys.drop (ys.length - periods)).length,
      (ys.drop (ys.length - periods)).getD i 0) =
      (ys.drop (ys.length - periods)).sum := sum_range_getD _
  have havg : 0 < (∑ i ∈ Finset.range (ys.drop (ys.length - periods)).length,
      (ys.drop (ys.length - periods)).getD i 0) /
      ((ys.drop (ys.length - periods)).length : ℚ) := by
    rw [hsy]
    exact hmean
  rw [if_neg havg.ne']
  have h100 : (0 : ℚ) < 100 := by norm_num
  exact mul_pos (div_pos (div_pos hnum hden) havg) h100

/-- Field identity behind the scale invariance of the slope percentage. -/
theorem slope_scale_arith (L sx sxx sxy sy k : ℚ) (hk : k ≠ 0)
    (hD : L * sxx - sx ^ 2 ≠ 0) (hL : L ≠ 0) (hsy : sy ≠ 0) :
    (L * (k * sxy) - sx * (k * sy)) / (L * sxx - sx ^ 2) / (k * sy / L) * 100 =
      (L * sxy - sx * sy) / (L * sxx - sx ^ 2) / (sy / L) * 100 := by
  field_simp
  ring

/-- `calculate_slope` is invariant under scaling every value by a nonzero
constant, whenever the window mean is nonzero. -/
theorem calculate_slope_scale (series : List (Option ℚ)) (periods : ℕ) (k : ℚ)
    (hk : k ≠ 0)
    (hmean : listMean ((takeLast periods series).filterMap id) ≠ 0) :
    calculate_slope (series.map (Option.map (fun v => k * v))) periods =
      calculate_slope series periods := by
  unfold calculate_slope
  by_cases hc1 : series.length < periods ∨ series.all (fun o => o.isNone) = true
  · rw [if_pos (by
      rcases hc1 with h | h
      · exact Or.inl (by rw [List.length_map]; omega)
      · exact Or.inr (by rw [all_isNone_map_optmap]; exact h)), if_pos hc1]
  · rw [if_neg (by
      rw [not_or] at hc1 ⊢
      exact ⟨by rw [List.length_map]; exact hc1.1,
        by rw [all_isNone_map_optmap]; exact hc1.2⟩), if_neg hc1]
    simp only []
    have hscaled : ((series.map (Option.map (fun v => k * v))).drop
        ((series.map (Option.map (fun v => k * v))).length - periods)).filterMap id =
        ((series.drop (series.length - periods)).filterMap id).map (fun v => k * v) := by
      rw [List.length_map, ← List.map_drop, filterMap_id_map_optmap]
    rw [hscaled, List.length_map]
    by_cases h2 : ((series.drop (series.length - periods)).filterMap id).length < 2
    · rw [if_pos h2, if_pos h2]
    · rw [if_neg h2, if_neg h2]
      have hgd : ∀ i ∈ Finset.range
          ((series.drop (series.length - periods)).filterMap id).length,
          (((series.drop (series.length - periods)).filterMap id).map
            (fun v => k * v)).getD i 0 =
          k * ((series.drop (series.length - periods)).filterMap id).getD i 0 :=
        fun i _ => getD_map_of_apply_zero _ (by ring) _ i
      have hsy : (∑ i ∈ Finset.range
          ((series.drop (series.length - periods)).filterMap id).length,
          (((series.drop (series.length - periods)).filterMap id).map
            (fun v => k * v)).getD i 0) =
          k * ∑ i ∈ Finset.range
            ((series.drop (series.length - periods)).filterMap id).length,
            ((series.drop (series.length - periods)).filterMap id).getD i 0 := by
        rw [Finset.sum_congr rfl hgd, Finset.mul_sum]
      have hsxy : (∑ i ∈ Finset.range
          ((series.drop (series.length - periods)).filterMap id).length,
          (i : ℚ) * (((series.drop (series.length - periods)).filterMap id).map
            (fun v => k * v)).getD i 0) =
          k * ∑ i ∈ Finset.range
            ((series.drop (series.length - periods)).filterMap id).length,
            (i : ℚ) * ((series.drop (series.length - periods)).filterMap id).getD i 0 := by
        rw [Finset.mul_sum]
        apply Finset.sum_congr rfl
        intro i hi
        rw [hgd i hi]; ring
      rw [hsy, hsxy]
      by_cases hd : (((series.drop (series.length - periods)).filterMap id).length : ℚ) *
          (∑ i ∈ Finset.range
            ((series.drop (series.length - periods)).filterMap id).length, (i : ℚ) ^ 2) -
          (∑ i ∈ Finset.range
            ((series.drop (series.length - periods)).filterMap id).length, (i : ℚ)) ^ 2 = 0
      · rw [if_pos hd, if_pos hd]
      · rw [if_neg hd, if_neg hd]
        have hsum : (∑ i ∈ Finset.range
            ((series.drop (series.length - periods)).filterMap id).length,
            ((series.drop (series.length - periods)).filterMap id).getD i 0) =
            ((series.drop (series.length - periods)).filterMap id).sum :=
          sum_range_getD _
        have havg : (∑ i ∈ Finset.range
            ((series.drop (series.length - periods)).filterMap id).length,
            ((series.drop (series.length - periods)).filterMap id).getD i 0) /
            (((series.drop (series.length - periods)).filterMap id).length : ℚ) ≠ 0 := by
          rw [hsum]
          exact hmean
        have havg2 : k * (∑ i ∈ Finset.range
            ((series.drop (series.length - periods)).filterMap id).length,
            ((series.drop (series.length - periods)).filterMap id).getD i 0) /
            (((series.drop (series.length - periods)).filterMap id).length : ℚ) ≠ 0 := by
          rw [mul_div_assoc]
          exact mul_ne_zero hk havg
        rw [if_neg havg2, if_neg havg]
        have hL : (((series.drop (series.length - periods)).filterMap id).length : ℚ) ≠ 0 := by
          intro h0
          apply havg
          rw [h0, div_zero]
        have hsy0 : (∑ i ∈ Finset.range
            ((series.drop (series.length - periods)).filterMap id).length,
            ((series.drop (series.length - periods)).filterMap id).getD i 0) ≠ 0 := by
          intro h0
          apply havg
          rw [h0, zero_div]
        exact slope_scale_arith _ _ _ _ _ k hk hd hL hsy0

/-- C8 counterexample: `[-1, 1]` is strictly increasing with both points in
the lookback window, yet the slope percentage is 0 (the window mean is 0,
a guarded early return), not strictly positive. -/
theorem C8_counterexample :
    calculate_slope [some (-1), some 1] 2 = 0 ∧
    ¬ (0 < calculate_slope [some (-1), some 1] 2) := by
  have h : calculate_slope [some (-1), some 1] 2 = 0 := by with_unfolding_all rfl
  exact ⟨h, by rw [h]; norm_num⟩

/-- C8 (amended): the slope of a perfectly flat series is 0; the slope of a
strictly increasing series whose lookback window has *positive mean* is
strictly positive; and scaling all values by a nonzero constant leaves
the slope percentage unchanged whenever the window mean is nonzero. -/
theorem C8_slope_properties :
    (∀ (c : ℚ) (n periods : ℕ),
      calculate_slope (List.replicate n (some c)) periods = 0) ∧
    (∀ (ys : List ℚ) (periods : ℕ), 2 ≤ periods → periods ≤ ys.length →
      (∀ i j, i < j → j < ys.length → ys.getD i 0 < ys.getD j 0) →
      0 < listMean (takeLast periods ys) →
      0 < calculate_slope (ys.map some) periods) ∧
    (∀ (series : List (Option ℚ)) (periods : ℕ) (k : ℚ), k ≠ 0 →
      listMean ((takeLast periods series).filterMap id) ≠ 0 →
      calculate_slope (series.map (Option.map (fun v => k * v))) periods =
        calculate_slope series periods) :=
  ⟨calculate_slope_const, calculate_slope_pos_of_increasing, calculate_slope_scale⟩

/-- Witness for C8 on concrete series: flat 7s, increasing [1,2,3],
and [1,2] scaled by 2. -/
theorem C8_witness :
    calculate_slope (List.replicate 5 (some (7 : ℚ))) 5 = 0 ∧
    0 < calculate_slope (([1, 2, 3] : List ℚ).map some) 3 ∧
    calculate_slope (([some 1, some 2] : List (Option ℚ)).map
        (Option.map (fun v => (2 : ℚ) * v))) 2 =
      calculate_slope [some 1, some 2] 2 :=
  ⟨C8_slope_properties.1 7 5 5,
   C8_slope_properties.2.1 [1, 2, 3] 3 (by norm_num) (by norm_num)
     (by intro i j hij hj
         simp only [List.length_cons, List.length_nil] at hj
         interval_cases j <;> interval_cases i <;> with_unfolding_all decide)
     (by with_unfolding_all decide),
   C8_slope_properties.2.2 [some 1, some 2] 2 2 (by norm_num)
     (by with_unfolding_all decide)⟩

/-! ## C7 — monotonicity of the buy score in the growth fundamentals -/

/-- The fundamentals bucket is monotone in the revenue YoY figure. -/
theorem fundamentalsScore_mono_revenue (e iv : Option ℚ) {r1 r2 : ℚ} (h : r1 ≤ r2) :
    fundamentalsScore (some ⟨some r1, e, iv⟩) ≤
      fundamentalsScore (some ⟨some r2, e, iv⟩) := by
  unfold fundamentalsScore
  have hlin : (r1 + 20) / 60 * (15/2) ≤ (r2 + 20) / 60 * (15/2) := by linarith
  exact add_le_add_right (add_le_add_right (add_le_add_right
    (min_le_min le_rfl (max_le_max le_rfl hlin)) _) _) _

/-- The fundamentals bucket is monotone in the EPS YoY figure. -/
theorem fundamentalsScore_mono_eps (rv iv : Option ℚ) {e1 e2 : ℚ} (h : e1 ≤ e2) :
    fundamentalsScore (some ⟨rv, some e1, iv⟩) ≤
      fundamentalsScore (some ⟨rv, some e2, iv⟩) := by
  unfold fundamentalsScore
  have hlin : (e1 + 20) / 80 * (15/2) ≤ (e2 + 20) / 80 * (15/2) := by linarith
  exact add_le_add_right (add_le_add_right (add_le_add_left
    (min_le_min le_rfl (max_le_max le_rfl hlin)) _) _) _

/-- Core monotonicity: two successful buy scorings of the same market
inputs are ordered like their fundamentals buckets. -/
theorem score_buy_mono_fund (ticker : String) (pd : PriceData) (current_price : ℚ)
    (phase_info : PhaseDict) (rs_series : List (Option ℚ))
    (f1 f2 : Option Fundamentals) (s1 s2 : BuySignal)
    (hf : fundamentalsScore f1 ≤ fundamentalsScore f2)
    (h1 : score_buy_signal ticker pd current_price phase_info rs_series f1 =
      Except.ok s1)
    (h2 : score_buy_signal ticker pd current_price phase_info rs_series f2 =
      Except.ok s2) :
    s1.score ≤ s2.score := by
  unfold score_buy_signal at h1 h2
  by_cases hph : ¬ (phase_info.phase = 1 ∨ phase_info.phase = 2)
  · rw [if_pos hph, Except.ok.injEq] at h1 h2
    subst h1
    subst h2
    exact le_refl _
  · rw [if_neg hph] at h1 h2
    simp only [] at h1 h2
    cases hbo : detect_breakout pd current_price phase_info with
    | error e =>
      rw [hbo] at h1
      exact Except.noConfusion h1
    | ok breakout_info =>
      rw [hbo] at h1 h2
      dsimp only [] at h1 h2
      cases hsl : calculate_stop_loss pd current_price phase_info phase_info.phase with
      | error e =>
        rw [hsl] at h1
        exact Except.noConfusion h1
      | ok stop_loss =>
        rw [hsl] at h1 h2
        dsimp only [] at h1 h2
        cases hrw : buyRewardTarget phase_info.phase current_price
            (phase_info.sma_50.getD 0) breakout_info with
        | error e =>
          rw [hrw] at h1
          exact Except.noConfusion h1
        | ok reward_target =>
          rw [hrw] at h1 h2
          dsimp only [] at h1 h2
          rw [Except.ok.injEq] at h1 h2
          subst h1
          subst h2
          dsimp only
          apply pyRound_mono
          apply max_le_max le_rfl
          apply min_le_min ?_ le_rfl
          exact add_le_add_right (add_le_add_right (add_le_add_right
            (add_le_add_right (add_le_add_left hf _) _) _) _) _

/-- C7: holding all other inputs fixed, the buy score is monotonically
non-decreasing in `revenue_yoy_change` over [−20, 40] and in
`eps_yoy_change` over [−20, 60] (whenever both scorings succeed). -/
theorem C7_buy_score_monotone :
    (∀ (ticker : String) (pd : PriceData) (current_price : ℚ)
       (phase_info : PhaseDict) (rs_series : List (Option ℚ))
       (e iv : Option ℚ) (r1 r2 : ℚ) (s1 s2 : BuySignal),
      -20 ≤ r1 → r1 ≤ r2 → r2 ≤ 40 →
      score_buy_signal ticker pd current_price phase_info rs_series
        (some ⟨some r1, e, iv⟩) = Except.ok s1 →
      score_buy_signal ticker pd current_price phase_info rs_series
        (some ⟨some r2, e, iv⟩) = Except.ok s2 →
      s1.score ≤ s2.score) ∧
    (∀ (ticker : String) (pd : PriceData) (current_price : ℚ)
       (phase_info : PhaseDict) (rs_series : List (Option ℚ))
       (rv iv : Option ℚ) (e1 e2 : ℚ) (s1 s2 : BuySignal),
      -20 ≤ e1 → e1 ≤ e2 → e2 ≤ 60 →
      score_buy_signal ticker pd current_price phase_info rs_series
        (some ⟨rv, some e1, iv⟩) = Except.ok s1 →
      score_buy_signal ticker pd current_price phase_info rs_series
        (some ⟨rv, some e2, iv⟩) = Except.ok s2 →
      s1.score ≤ s2.score) :=
  ⟨fun ticker pd cp pi rs e iv r1 r2 s1 s2 _ h12 _ h1 h2 =>
    score_buy_mono_fund ticker pd cp pi rs _ _ s1 s2
      (fundamentalsScore_mono_revenue e iv h12) h1 h2,
   fun ticker pd cp pi rs rv iv e1 e2 s1 s2 _ h12 _ h1 h2 =>
    score_buy_mono_fund ticker pd cp pi rs _ _ s1 s2
      (fundamentalsScore_mono_eps rv iv h12) h1 h2⟩

/-- 60 constant bars for the C7 witness. -/
def pdC7 : PriceData :=
  { high := List.replicate 60 (10 : ℚ), low := List.replicate 60 (10 : ℚ),
    close := List.replicate 60 (10 : ℚ), volume := none }

/-- Witness for C7: revenue 0 vs 10 gives scores 36.2 ≤ 37.5. -/
theorem C7_witness :
    score_buy_signal "T" pdC7 5 { phase := 2, sma_50 := some 100 } []
        (some ⟨some 0, none, none⟩) =
      Except.ok (BuySignal.mk "T" false (181/5) 2 none (some (97/20)) (667/100)
        "Good" 0 (65/4) 5 5 5 5) ∧
    score_buy_signal "T" pdC7 5 { phase := 2, sma_50 := some 100 } []
        (some ⟨some 10, none, none⟩) =
      Except.ok (BuySignal.mk "T" false (75/2) 2 none (some (97/20)) (667/100)
        "Good" 0 (35/2) 5 5 5 5) ∧
    (BuySignal.mk "T" false ((181 : ℚ)/5) 2 none (some (97/20)) (667/100)
        "Good" 0 (65/4) 5 5 5 5).score ≤
      (BuySignal.mk "T" false ((75 : ℚ)/2) 2 none (some (97/20)) (667/100)
        "Good" 0 (35/2) 5 5 5 5).score :=
  ⟨by with_unfolding_all rfl, by with_unfolding_all rfl,
   C7_buy_score_monotone.1 "T" pdC7 5 { phase := 2, sma_50 := some 100 } []
     none none 0 10 _ _ (by norm_num) (by norm_num) (by norm_num)
     (by with_unfolding_all rfl) (by with_unfolding_all rfl)⟩
